import Mathlib

/-!
Verification development for the NFCopy repository: a tray application that
watches for a smart-card reader, reads card UIDs, and keeps a bounded history.

The definitions below are a shallow embedding of the Python source:
  - src/app/nfc/observer.py   (UIDObserver.update / UIDObserver._read_uid)
  - src/main.py               (the duplicate UIDObserver._read_uid and SmartCardTrayApp)
  - src/app/application.py    (TrayApplication._on_uid, _monitor_loop,
                               _ensure_card_monitor_started, _ensure_card_monitor_stopped)
Bytes are modelled as Nat (each byte of a card response is below 256), strings as
Lean String, and side effects (log lines, clipboard writes, notifications,
monitor subscription calls) as explicit action traces.
-/

namespace NFCopy

/-! ## UID rendering (pyscard toHexString followed by replace and upper) -/

/-- One uppercase hexadecimal digit for a value below 16, as produced by the
percent-X formatting used by pyscard toHexString. -/
def hexDigit (n : Nat) : Char :=
  if n < 10 then Char.ofNat (48 + n) else Char.ofNat (55 + n)

/-- The two-digit uppercase hexadecimal rendering of one byte (value below 256),
matching percent-0.2X formatting. -/
def byteHexChars (b : Nat) : List Char :=
  [hexDigit (b / 16 % 16), hexDigit (b % 16)]

/-- Embedding of pyscard toHexString on a byte list: two-digit uppercase
hexadecimal bytes separated by single spaces. -/
def toHexStringChars : List Nat → List Char
  | [] => []
  | [b] => byteHexChars b
  | b :: rest => byteHexChars b ++ ' ' :: toHexStringChars rest

/-- Embedding of the source expression
toHexString(uid_bytes).replace(" ", "").upper() from observer.py line 56 and
main.py: replacing every space by the empty string is removing every space
character, and upper maps each character to upper case. -/
def uidHex (bs : List Nat) : String :=
  ⟨((toHexStringChars bs).filter (fun c => c ≠ ' ')).map Char.toUpper⟩

/-- Rendering described by the words of the spec: the bytes rendered as
two-digit uppercase hexadecimal, concatenated with no separators. Stated
independently of the toHexString pipeline so the two can be compared. -/
def specRender (bs : List Nat) : String :=
  ⟨bs.flatMap byteHexChars⟩

/-! ## The status-handling part of UIDObserver._read_uid -/

/-- A card response as returned by conn.transmit: payload bytes and the two
status bytes. All values are bytes, i.e. below 256. -/
structure CardResponse where
  data : List Nat
  sw1 : Nat
  sw2 : Nat
deriving DecidableEq

/-- The byte-layout heuristic of observer.py lines 51-54: for a payload longer
than 4 bytes, prepend the cascade tag 0x88 and keep the first 3 payload bytes;
otherwise use the payload unmodified. -/
def uidBytesOf (data : List Nat) : List Nat :=
  if 4 < data.length then 0x88 :: data.take 3 else data

/-- The diagnostic line logged by observer.py line 60 for a non-success
response (status bytes rendered as two-digit uppercase hexadecimal). -/
def diagLine (sw1 sw2 : Nat) : String :=
  "[UIDObserver] Unexpected SW1/SW2: " ++ ⟨byteHexChars sw1⟩ ++ " " ++ ⟨byteHexChars sw2⟩

/-- Status handling of UIDObserver._read_uid in src/app/nfc/observer.py
lines 49-60, after a successful connect and transmit: on status (0x90, 0x00)
with non-empty payload, emit the rendered UID (first component) and log
nothing; otherwise emit nothing and log one diagnostic line (second
component). -/
def readUidStatus (r : CardResponse) : Option String × List String :=
  if (r.sw1, r.sw2) = (0x90, 0x00) ∧ r.data ≠ [] then
    (some (uidHex (uidBytesOf r.data)), [])
  else
    (none, [diagLine r.sw1 r.sw2])

/-- The diagnostic line logged by the duplicate implementation in src/main.py
(Portuguese wording). -/
def diagLineMain (sw1 sw2 : Nat) : String :=
  "[UIDObserver] SW1/SW2 inesperado: " ++ ⟨byteHexChars sw1⟩ ++ " " ++ ⟨byteHexChars sw2⟩

/-- Status handling of the duplicate UIDObserver._read_uid in src/main.py
lines 139-146: identical to the observer.py version except that the payload is
rendered unmodified, with no cascade-tag heuristic. -/
def readUidStatusMain (r : CardResponse) : Option String × List String :=
  if (r.sw1, r.sw2) = (0x90, 0x00) ∧ r.data ≠ [] then
    (some (uidHex r.data), [])
  else
    (none, [diagLineMain r.sw1 r.sw2])

/-! ## Full card read with connect retry (UIDObserver._read_uid and update) -/

/-- A card presented to the observer. connectFails is the number of consecutive
connect attempts on this card that raise CardConnectionException before a
connect succeeds. -/
structure Card where
  connectFails : Nat
  resp : CardResponse
deriving DecidableEq

/-- Observable actions of one UIDObserver._read_uid call. -/
inductive ReadAct where
  | connectAttempt
  | sleepMs (ms : Nat)
  | transmit (apdu : List Nat)
  | emit (uid : String)
  | logLine (line : String)
deriving DecidableEq

/-- The GET DATA (UID) command APDU sent by conn.transmit. Its definition in
src/app/nfc/commands.py is not under src, but src/main.py line 20 gives the
same constant, from which this is taken. -/
def GET_UID_COMMAND : List Nat := [0xFF, 0xCA, 0x00, 0x00, 0x00]

/-- The log line of the outer except clause of observer.py line 62 (the
traceback text is not modelled). -/
def excLog (exc : String) : String :=
  "[UIDObserver] Exception while reading card: " ++ exc

/-- Embedding of UIDObserver._read_uid in src/app/nfc/observer.py lines 40-62:
create a connection and connect; a first CardConnectionException is handled by
sleeping 200ms and connecting once more; a second consecutive
CardConnectionException propagates to the outer except clause, which logs and
returns (so the whole call never raises). After a successful connect, transmit
GET_UID_COMMAND and handle the response as in readUidStatus. Returns the
action trace and the UID forwarded to the callback, if any. -/
def readUidTrace (c : Card) : List ReadAct × Option String :=
  let connectActs : List ReadAct :=
    if c.connectFails = 0 then [ReadAct.connectAttempt]
    else [ReadAct.connectAttempt, ReadAct.sleepMs 200, ReadAct.connectAttempt]
  if 2 ≤ c.connectFails then
    (connectActs ++ [ReadAct.logLine (excLog "CardConnectionException")], none)
  else
    match readUidStatus c.resp with
    | (some uid, _) =>
        (connectActs ++ [ReadAct.transmit GET_UID_COMMAND, ReadAct.emit uid], some uid)
    | (none, logs) =>
        (connectActs ++ [ReadAct.transmit GET_UID_COMMAND] ++ logs.map ReadAct.logLine, none)

/-- Embedding of UIDObserver.update in observer.py lines 33-37: each added
card is read in turn; since _read_uid catches all its exceptions internally,
every card of the batch is processed. Returns the per-card forwarded UIDs. -/
def updateResults (cards : List Card) : List (Option String) :=
  cards.map (fun c => (readUidTrace c).2)

/-- The concatenated action trace of UIDObserver.update over a batch. -/
def updateTrace (cards : List Card) : List ReadAct :=
  cards.flatMap (fun c => (readUidTrace c).1)

/-! ## History store and TrayApplication._on_uid -/

/-- The history update performed by TrayApplication._on_uid lines 73-78 on the
deque created with maxlen 10: remove the first occurrence of uid if present,
append uid at the newest end, and (deque maxlen semantics) drop from the
oldest end whatever exceeds 10 entries. -/
def record (h : List String) (uid : String) : List String :=
  let h1 := if uid ∈ h then h.erase uid else h
  let h2 := h1 ++ [uid]
  if 10 < h2.length then h2.drop (h2.length - 10) else h2

/-- Observable actions of one TrayApplication._on_uid call. -/
inductive AppAct where
  | clipboardWrite (uid : String)
  | historyWrite (uid : String)
  | menuRebuild
  | notifyUidCopied (uid : String)
  | logLine (line : String)
deriving DecidableEq

/-- The methods the Notifier class of src/app/ui/notifier.py defines (besides
init and the internal _show_toast_notification helper). The class has no
getattr hook, so calling any other attribute raises AttributeError. -/
def notifierMethods : List String :=
  ["show_uid_toast", "show_nfc_reader_state_toast", "_show_toast_notification"]

/-- The message of the AttributeError raised by calling an undefined method on
the Notifier. -/
def attrError (method : String) : String :=
  "AttributeError: Notifier object has no attribute " ++ method

/-- A method call on the Notifier instance: when the named method exists the
given action is performed and the call returns normally; otherwise no action
is performed and the attribute lookup raises AttributeError. -/
def notifierCall {α : Type} (method : String) (act : α) : List α × Except String Unit :=
  if method ∈ notifierMethods then ([act], Except.ok ())
  else ([], Except.error (attrError method))

/-- Embedding of TrayApplication._on_uid in src/app/application.py lines
59-81: attempt the clipboard write (a raised failure is caught and logged,
clipFails says whether it raises), then update the history, then rebuild the
menu (internally caught, never raises), then call notifier.uid_copied. The
Notifier defines no uid_copied method, so that last call raises
AttributeError, which propagates out of _on_uid; the history update has
already happened by then. Returns the new history, the action trace in
execution order, and whether the call returns normally or raises. -/
def onUid (h : List String) (uid : String) (clipFails : Bool) :
    List String × List AppAct × Except String Unit :=
  let clipActs : List AppAct :=
    if clipFails then
      [AppAct.clipboardWrite uid, AppAct.logLine "[App] Clipboard copy failed: Exception"]
    else [AppAct.clipboardWrite uid]
  let notify := notifierCall "uid_copied" (AppAct.notifyUidCopied uid)
  (record h uid,
   clipActs ++ [AppAct.historyWrite uid, AppAct.menuRebuild] ++ notify.1,
   notify.2)

/-- True on the four core actions of _on_uid (log lines filtered out). -/
def isCoreAct : AppAct → Bool
  | AppAct.logLine _ => false
  | _ => true

/-! ## Reader monitor loop (TrayApplication._monitor_loop and helpers) -/

/-- The mutable state read and written by one iteration of
TrayApplication._monitor_loop: the loop locals last_connected and last_name
(None before the first iteration), and the fields reader_name, _card_monitor,
_observer and is_startup_notified of the application. The monitor and observer
objects are modelled by their presence only. -/
structure LoopState where
  lastConnected : Option Bool
  lastName : Option String
  readerName : Option String
  cardMonitor : Option Unit
  observer : Option Unit
  startupNotified : Bool
deriving DecidableEq

/-- Observable actions of the monitor loop and its helpers. -/
inductive MAct where
  | createMonitor
  | addObserverCall
  | deleteObserverCall
  | notifyReaderState (name : Option String) (lastName : Option String) (connected : Bool)
  | setIcon (connected : Bool)
  | rebuildMenu
  | logLine (line : String)
deriving DecidableEq

/-- Embedding of TrayApplication._ensure_card_monitor_started, application.py
lines 120-131: under the lock, if _card_monitor is None, assign
_card_monitor from the CardMonitor constructor, build the observer, and call
addObserver. monCtorFails says whether the CardMonitor constructor raises (in
which case the assignment never happens); addObsFails says whether addObserver
raises (in which case _card_monitor and _observer have already been
assigned). Either failure is caught and logged by the except clause. -/
def ensureStarted (s : LoopState) (monCtorFails addObsFails : Bool) : LoopState × List MAct :=
  if s.cardMonitor.isSome then (s, [])
  else if monCtorFails then
    (s, [MAct.logLine "[App] Failed to start CardMonitor: Exception"])
  else if addObsFails then
    ({s with cardMonitor := some (), observer := some ()},
     [MAct.createMonitor, MAct.logLine "[App] Failed to start CardMonitor: Exception"])
  else
    ({s with cardMonitor := some (), observer := some ()},
     [MAct.createMonitor, MAct.addObserverCall, MAct.logLine "[App] CardMonitor started."])

/-- The raw deleteObserver call, which may raise. -/
def deleteObserverOp (fails : Bool) : Except String Unit :=
  if fails then Except.error "deleteObserver failed" else Except.ok ()

/-- Embedding of TrayApplication._ensure_card_monitor_stopped, application.py
lines 133-142: under the lock, try to call deleteObserver when both
_card_monitor and _observer are set; any exception is swallowed by the bare
except clause, and the finally clause sets both references to None. -/
def ensureStopped (s : LoopState) (deleteFails : Bool) : LoopState × List MAct :=
  let attempt : Except String Unit :=
    if s.cardMonitor.isSome && s.observer.isSome then deleteObserverOp deleteFails
    else Except.ok ()
  let acts : List MAct :=
    if s.cardMonitor.isSome && s.observer.isSome then [MAct.deleteObserverCall] else []
  match attempt with
  | Except.ok _ => ({s with cardMonitor := none, observer := none}, acts)
  | Except.error _ => ({s with cardMonitor := none, observer := none}, acts)

/-- Embedding of one iteration of the while loop of
TrayApplication._monitor_loop, application.py lines 84-113, with rlist the
reader list returned by readers() at this poll: compute connected and name;
on a changed (connected, name) pair, assign reader_name and call
notifier.nfc_reader_state, then swap the icon, rebuild the menu and update
the loop locals; then start or stop the card monitor; then, if the startup
notification is still pending, call notifier.nfc_reader_state once more and
set the flag. The Notifier defines no nfc_reader_state method, so each of the
two calls raises AttributeError when reached; the try clause of the loop body
covers only readers(), so the exception propagates out of _monitor_loop and
the monitor thread dies. Returns the state, the action trace in execution
order, and whether the iteration completes or raises. -/
def monitorIter (s : LoopState) (rlist : List String)
    (monCtorFails addObsFails deleteFails : Bool) :
    LoopState × List MAct × Except String Unit :=
  let connected : Bool := rlist.length > 0
  let name : Option String := rlist.head?
  let step1 : LoopState × List MAct × Except String Unit :=
    if some connected ≠ s.lastConnected ∨ name ≠ s.lastName then
      let s1 : LoopState := {s with readerName := name}
      match notifierCall "nfc_reader_state"
          (MAct.notifyReaderState name s.lastName connected) with
      | (acts, Except.ok _) =>
          ({s1 with lastConnected := some connected, lastName := name},
           acts ++ [MAct.setIcon connected, MAct.rebuildMenu], Except.ok ())
      | (acts, Except.error e) => (s1, acts, Except.error e)
    else (s, [], Except.ok ())
  match step1 with
  | (_, _, Except.error _) => step1
  | (s1, acts1, Except.ok _) =>
    let step2 : LoopState × List MAct :=
      if connected then ensureStarted s1 monCtorFails addObsFails
      else ensureStopped s1 deleteFails
    if step2.1.startupNotified then (step2.1, acts1 ++ step2.2, Except.ok ())
    else
      match notifierCall "nfc_reader_state"
          (MAct.notifyReaderState name step2.1.lastName connected) with
      | (acts3, Except.ok _) =>
          ({step2.1 with startupNotified := true},
           acts1 ++ step2.2 ++ acts3, Except.ok ())
      | (acts3, Except.error e) => (step2.1, acts1 ++ step2.2 ++ acts3, Except.error e)

/-- True on the reader-state-changed notification actions. -/
def isNotifyAct : MAct → Bool
  | MAct.notifyReaderState _ _ _ => true
  | _ => false

/-- True on the MonitorHandle creation action. -/
def isCreateAct : MAct → Bool
  | MAct.createMonitor => true
  | _ => false

/-- True on the MonitorHandle destruction action. -/
def isDeleteAct : MAct → Bool
  | MAct.deleteObserverCall => true
  | _ => false

/-! ## Bridge lemmas for the rendering pipeline -/

theorem hexDigit_upper_fixed : ∀ n, n < 16 → (hexDigit n).toUpper = hexDigit n ∧ hexDigit n ≠ ' ' := by
  decide

theorem byteHexChars_clean (b : Nat) :
    ((byteHexChars b).filter (fun c => c ≠ ' ')).map Char.toUpper = byteHexChars b := by
  have h1 := hexDigit_upper_fixed (b / 16 % 16) (Nat.mod_lt _ (by norm_num))
  have h2 := hexDigit_upper_fixed (b % 16) (Nat.mod_lt _ (by norm_num))
  simp [byteHexChars, List.filter, h1.1, h1.2, h2.1, h2.2]

/-- Stripping the spaces out of the space-separated toHexString rendering and
upper-casing is exactly the concatenated two-digit uppercase rendering. -/
theorem uidHex_eq_specRender (bs : List Nat) : uidHex bs = specRender bs := by
  unfold uidHex specRender
  congr 1
  induction bs with
  | nil => simp [toHexStringChars]
  | cons b rest ih =>
    cases rest with
    | nil => simpa [toHexStringChars] using byteHexChars_clean b
    | cons c cs =>
      simp only [toHexStringChars, List.flatMap_cons] at ih ⊢
      rw [List.filter_append, List.map_append]
      rw [show (' ' :: toHexStringChars (c :: cs)).filter (fun c => c ≠ ' ') =
            (toHexStringChars (c :: cs)).filter (fun c => c ≠ ' ') by simp [List.filter]]
      rw [byteHexChars_clean b, ih]

/-! ## Helper lemmas for the history store -/

theorem record_length_le (h : List String) (u : String) : (record h u).length ≤ 10 := by
  unfold record
  by_cases hlen : 10 < ((if u ∈ h then h.erase u else h) ++ [u]).length
  · simp only [if_pos hlen, List.length_drop]
    omega
  · simp only [if_neg hlen]
    omega

theorem record_nodup {h : List String} (hn : h.Nodup) (u : String) : (record h u).Nodup := by
  unfold record
  have h1n : (if u ∈ h then h.erase u else h).Nodup := by
    split
    · exact hn.erase u
    · exact hn
  have hmem : u ∉ (if u ∈ h then h.erase u else h) := by
    split
    · exact hn.not_mem_erase
    · assumption
  have h2n : ((if u ∈ h then h.erase u else h) ++ [u]).Nodup := by
    refine List.nodup_append.2 ⟨h1n, List.nodup_singleton u, ?_⟩
    intro x hx hx1
    rw [List.mem_singleton] at hx1
    exact hmem (hx1 ▸ hx)
  by_cases hlen : 10 < ((if u ∈ h then h.erase u else h) ++ [u]).length
  · simp only [if_pos hlen]
    exact List.Nodup.sublist (List.drop_sublist _ _) h2n
  · simpa only [if_neg hlen] using h2n

theorem record_getLast (h : List String) (u : String) : (record h u).getLast? = some u := by
  unfold record
  by_cases hlen : 10 < ((if u ∈ h then h.erase u else h) ++ [u]).length
  · simp only [if_pos hlen]
    rw [List.drop_append_of_le_length
      (by simp only [List.length_append, List.length_cons, List.length_nil] at hlen ⊢; omega),
      List.getLast?_concat]
  · simp only [if_neg hlen]
    exact List.getLast?_concat _

theorem foldl_record_nodup : ∀ (captures h : List String), h.Nodup →
    (captures.foldl record h).Nodup
  | [], _, hn => hn
  | _ :: cs, h, hn => foldl_record_nodup cs (record h _) (record_nodup hn _)

theorem foldl_record_length : ∀ (captures h : List String), h.length ≤ 10 →
    (captures.foldl record h).length ≤ 10
  | [], _, hl => hl
  | _ :: cs, h, _ => foldl_record_length cs (record h _) (record_length_le h _)

theorem foldl_record_getLast : ∀ (captures : List String), captures ≠ [] →
    ∀ h : List String, (captures.foldl record h).getLast? = captures.getLast?
  | [], hne, _ => absurd rfl hne
  | [c], _, h => by simp [record_getLast]
  | c :: d :: rest, _, h => by
    rw [List.foldl_cons, foldl_record_getLast (d :: rest) (by simp) (record h c),
      List.getLast?_cons_cons]

theorem countP_connectAttempt_logLine (logs : List String) :
    List.countP ((fun a => decide (a = ReadAct.connectAttempt)) ∘ ReadAct.logLine) logs = 0 :=
  List.countP_eq_zero.2 (fun x _ => by simp)

/-! ## Claim theorems -/

/-- C1: for every card response with status bytes (0x90, 0x00) and non-empty
payload, UIDObserver._read_uid forwards the payload bytes rendered as
two-digit uppercase hexadecimal concatenated with no separators; when the
payload is longer than 4 bytes, the forwarded string is instead the rendering
of the cascade-tag byte 0x88 followed by the first 3 payload bytes, so payload
[0x04, 0xA1, 0x2B, 0x9C] yields "04A12B9C" and the 7-byte payload
[0x04, 0xA1, 0x2B, 0x9C, 0x11, 0x22, 0x33] yields "8804A12B". -/
theorem c1_uid_rendering :
    (∀ data : List Nat, data ≠ [] →
      (readUidStatus ⟨data, 0x90, 0x00⟩).1 =
        some (specRender (if 4 < data.length then 0x88 :: data.take 3 else data))) ∧
    (readUidStatus ⟨[0x04, 0xA1, 0x2B, 0x9C], 0x90, 0x00⟩).1 = some "04A12B9C" ∧
    (readUidStatus ⟨[0x04, 0xA1, 0x2B, 0x9C, 0x11, 0x22, 0x33], 0x90, 0x00⟩).1 =
      some "8804A12B" := by
  refine ⟨?_, by decide, by decide⟩
  intro data hne
  simp [readUidStatus, hne, uidBytesOf, uidHex_eq_specRender]

theorem c1_uid_rendering_witness :
    ([0x04, 0xA1] ≠ ([] : List Nat)) ∧
    (readUidStatus ⟨[0x04, 0xA1], 0x90, 0x00⟩).1 =
      some (specRender (if 4 < ([0x04, 0xA1] : List Nat).length
        then 0x88 :: ([0x04, 0xA1] : List Nat).take 3 else [0x04, 0xA1])) :=
  ⟨by decide, c1_uid_rendering.1 [0x04, 0xA1] (by decide)⟩

/-- C2 counterexample: the two duplicate UID-read implementations are not
equivalent. On the 7-byte payload [0x04, 0xA1, 0x2B, 0x9C, 0x11, 0x22, 0x33]
with success status, observer.py forwards "8804A12B" while main.py forwards
"04A12B9C112233". -/
theorem c2_duplicate_divergence :
    (readUidStatus ⟨[0x04, 0xA1, 0x2B, 0x9C, 0x11, 0x22, 0x33], 0x90, 0x00⟩).1 ≠
      (readUidStatusMain ⟨[0x04, 0xA1, 0x2B, 0x9C, 0x11, 0x22, 0x33], 0x90, 0x00⟩).1 := by
  decide

/-- C2 amended: the two duplicate UID-read implementations agree on every
response whose payload is at most 4 bytes, and they agree on whether a UID is
emitted at all; they diverge only on the forwarded string for payloads longer
than 4 bytes, where observer.py applies the cascade-tag heuristic and main.py
does not. -/
theorem c2_duplicate_agreement :
    ∀ r : CardResponse,
      (r.data.length ≤ 4 → (readUidStatus r).1 = (readUidStatusMain r).1) ∧
      ((readUidStatus r).1 = none ↔ (readUidStatusMain r).1 = none) := by
  intro r
  constructor
  · intro hlen
    by_cases hc : (r.sw1 = 0x90 ∧ r.sw2 = 0x00) ∧ r.data ≠ []
    · simp [readUidStatus, readUidStatusMain, hc, uidBytesOf, Nat.not_lt.2 hlen]
    · simp [readUidStatus, readUidStatusMain, hc]
  · by_cases hc : (r.sw1 = 0x90 ∧ r.sw2 = 0x00) ∧ r.data ≠ [] <;>
      simp [readUidStatus, readUidStatusMain, hc]

theorem c2_duplicate_agreement_witness :
    (([0x04, 0xA1, 0x2B, 0x9C] : List Nat).length ≤ 4) ∧
    (readUidStatus ⟨[0x04, 0xA1, 0x2B, 0x9C], 0x90, 0x00⟩).1 =
      (readUidStatusMain ⟨[0x04, 0xA1, 0x2B, 0x9C], 0x90, 0x00⟩).1 :=
  ⟨by decide, (c2_duplicate_agreement ⟨[0x04, 0xA1, 0x2B, 0x9C], 0x90, 0x00⟩).1 (by decide)⟩

/-- C6: the UID Extractor forwards a UID to the callback if and only if the
status bytes equal (0x90, 0x00) and the payload is non-empty; otherwise no UID
is emitted and exactly one diagnostic line containing the status pair is
logged; in particular status (0x6A, 0x81) yields no UID and the single line
"[UIDObserver] Unexpected SW1/SW2: 6A 81". -/
theorem c6_emit_iff_success :
    ∀ r : CardResponse,
      ((readUidStatus r).1.isSome ↔ ((r.sw1, r.sw2) = (0x90, 0x00) ∧ r.data ≠ [])) ∧
      (¬ ((r.sw1, r.sw2) = (0x90, 0x00) ∧ r.data ≠ []) →
        (readUidStatus r).1 = none ∧ (readUidStatus r).2 = [diagLine r.sw1 r.sw2]) ∧
      (((r.sw1, r.sw2) = (0x90, 0x00) ∧ r.data ≠ []) → (readUidStatus r).2 = []) ∧
      (readUidStatus ⟨r.data, 0x6A, 0x81⟩).1 = none ∧
      (readUidStatus ⟨r.data, 0x6A, 0x81⟩).2 =
        ["[UIDObserver] Unexpected SW1/SW2: 6A 81"] := by
  intro r
  refine ⟨?_, ?_, ?_, ?_, ?_⟩
  · by_cases hc : (r.sw1 = 0x90 ∧ r.sw2 = 0x00) ∧ r.data ≠ [] <;>
      simp [readUidStatus, hc]
  · intro hc
    rw [show ((r.sw1, r.sw2) = ((0x90 : Nat), (0x00 : Nat)) ∧ r.data ≠ []) =
        ((r.sw1 = 0x90 ∧ r.sw2 = 0x00) ∧ r.data ≠ []) by simp] at hc
    simp [readUidStatus, hc]
  · intro hc
    rw [show ((r.sw1, r.sw2) = ((0x90 : Nat), (0x00 : Nat)) ∧ r.data ≠ []) =
        ((r.sw1 = 0x90 ∧ r.sw2 = 0x00) ∧ r.data ≠ []) by simp] at hc
    simp [readUidStatus, hc]
  · simp [readUidStatus]
  · have hd : diagLine 0x6A 0x81 = "[UIDObserver] Unexpected SW1/SW2: 6A 81" := by decide
    simp [readUidStatus, hd]

theorem c6_emit_iff_success_witness :
    (¬ (((0x6A : Nat), (0x81 : Nat)) = (0x90, 0x00) ∧ ([0x04] : List Nat) ≠ [])) ∧
    (readUidStatus ⟨[0x04], 0x6A, 0x81⟩).1 = none ∧
    (readUidStatus ⟨[0x04], 0x6A, 0x81⟩).2 = [diagLine 0x6A 0x81] :=
  ⟨by decide, (c6_emit_iff_success ⟨[0x04], 0x6A, 0x81⟩).2.1 (by decide)⟩

/-- C7: for every card read, a failed first connect is followed by a 200ms
wait and exactly one retry (never a third attempt); a successful retry still
yields the same UID as an immediately successful connect; a second consecutive
failure aborts that read only, logged at the card-read boundary with no
transmit or emit; and the observer loop still processes every card of the
batch, as the concrete batch of a doubly-failing card followed by a good card
shows. -/
theorem c7_connect_retry :
    ∀ c : Card,
      ((readUidTrace c).1.countP (fun a => a = ReadAct.connectAttempt) ≤ 2) ∧
      (1 ≤ c.connectFails →
        (readUidTrace c).1.take 3 =
          [ReadAct.connectAttempt, ReadAct.sleepMs 200, ReadAct.connectAttempt] ∧
        (readUidTrace c).1.countP (fun a => a = ReadAct.connectAttempt) = 2) ∧
      (c.connectFails = 1 → (readUidTrace c).2 = (readUidTrace ⟨0, c.resp⟩).2) ∧
      (2 ≤ c.connectFails →
        (readUidTrace c).2 = none ∧
        (readUidTrace c).1 = [ReadAct.connectAttempt, ReadAct.sleepMs 200,
          ReadAct.connectAttempt, ReadAct.logLine (excLog "CardConnectionException")]) ∧
      (∀ cs : List Card, updateResults (c :: cs) = (readUidTrace c).2 :: updateResults cs) ∧
      updateResults [⟨2, ⟨[0x04, 0xA1, 0x2B, 0x9C], 0x90, 0x00⟩⟩,
          ⟨0, ⟨[0x04, 0xA1, 0x2B, 0x9C], 0x90, 0x00⟩⟩] =
        [none, some "04A12B9C"] := by
  intro c
  obtain ⟨n, r⟩ := c
  refine ⟨?_, ?_, ?_, ?_, fun cs => rfl, by decide⟩
  · match n with
    | 0 =>
      rcases hr : readUidStatus r with ⟨u, logs⟩
      cases u <;> simp [readUidTrace, hr, List.countP_cons, List.countP_append, countP_connectAttempt_logLine]
    | 1 =>
      rcases hr : readUidStatus r with ⟨u, logs⟩
      cases u <;> simp [readUidTrace, hr, List.countP_cons, List.countP_append, countP_connectAttempt_logLine]
    | n + 2 =>
      simp [readUidTrace, show 2 ≤ n + 2 by omega, List.countP_cons, List.countP_append, countP_connectAttempt_logLine]
  · intro hge
    match n, hge with
    | 1, _ =>
      rcases hr : readUidStatus r with ⟨u, logs⟩
      cases u <;> simp [readUidTrace, hr, List.countP_cons, List.countP_append, countP_connectAttempt_logLine]
    | n + 2, _ =>
      simp [readUidTrace, show 2 ≤ n + 2 by omega, List.countP_cons, List.countP_append, countP_connectAttempt_logLine]
  · intro h1
    subst h1
    rcases hr : readUidStatus r with ⟨u, logs⟩
    cases u <;> simp [readUidTrace, hr]
  · intro hge
    match n, hge with
    | n + 2, _ => simp [readUidTrace, show 2 ≤ n + 2 by omega]

theorem c7_connect_retry_witness :
    (1 ≤ (1 : Nat)) ∧
    (readUidTrace ⟨1, ⟨[0x04], 0x90, 0x00⟩⟩).2 =
      (readUidTrace ⟨0, ⟨[0x04], 0x90, 0x00⟩⟩).2 :=
  ⟨by decide, (c7_connect_retry ⟨1, ⟨[0x04], 0x90, 0x00⟩⟩).2.2.1 rfl⟩

/-- C3 counterexample: at the concrete input of an empty history, UID
"04A12B9C" and a succeeding clipboard, the core actions of
TrayApplication._on_uid are not the claimed sequence (history write, then
clipboard write, then menu rebuild, then UID-copied notification): the code
requests the clipboard write before writing the history, and the UID-copied
notification never executes at all because notifier.uid_copied is not a
method the Notifier defines. -/
theorem c3_order_counterexample :
    (onUid [] "04A12B9C" false).2.1.filter isCoreAct ≠
      [AppAct.historyWrite "04A12B9C", AppAct.clipboardWrite "04A12B9C",
       AppAct.menuRebuild, AppAct.notifyUidCopied "04A12B9C"] := by
  decide

/-- C3 amended: on every UID-captured event, TrayApplication._on_uid executes
clipboard write, history write and menu rebuild, in that order; the fourth
action, the UID-copied notification, never executes: the handler calls
notifier.uid_copied, a method the Notifier does not define, so after the menu
rebuild the call raises AttributeError (caught further out at the card-read
boundary of the observer), leaving the history already updated. A failure
raised by the clipboard write still does not block or skip any of the
subsequent actions. -/
theorem c3_on_uid_order :
    ∀ (h : List String) (uid : String) (clipFails : Bool),
      (onUid h uid clipFails).2.1.filter isCoreAct =
        [AppAct.clipboardWrite uid, AppAct.historyWrite uid, AppAct.menuRebuild] ∧
      AppAct.notifyUidCopied uid ∉ (onUid h uid clipFails).2.1 ∧
      (onUid h uid clipFails).2.2 = Except.error (attrError "uid_copied") ∧
      (onUid h uid clipFails).1 = record h uid := by
  intro h uid clipFails
  cases clipFails <;>
    simp [onUid, notifierCall, notifierMethods, isCoreAct]

/-- C4: starting from the empty history, after any sequence of captures the
history holds at most 10 entries, contains no duplicates, and the most recent
capture is the last element oldest-to-newest; and recording an 11th distinct
UID into a full history of 10 evicts exactly the oldest (position-1) member
and no other. -/
theorem c4_history_invariants :
    (∀ captures : List String,
      (captures.foldl record []).length ≤ 10 ∧
      (captures.foldl record []).Nodup ∧
      (captures ≠ [] → (captures.foldl record []).getLast? = captures.getLast?)) ∧
    (∀ (h : List String) (u : String), h.length = 10 → u ∉ h →
      record h u = h.drop 1 ++ [u]) := by
  constructor
  · intro captures
    refine ⟨foldl_record_length captures [] (by simp),
      foldl_record_nodup captures [] List.nodup_nil,
      fun hne => foldl_record_getLast captures hne []⟩
  · intro h u hlen hmem
    unfold record
    rw [if_neg hmem, if_pos (by simp [hlen]),
      show (h ++ [u]).length - 10 = 1 by simp [hlen],
      List.drop_append_of_le_length (by omega)]

theorem c4_history_invariants_witness :
    (["A", "B", "C", "D", "E", "F", "G", "H", "I", "J"].length = 10) ∧
    ("K" ∉ ["A", "B", "C", "D", "E", "F", "G", "H", "I", "J"]) ∧
    record ["A", "B", "C", "D", "E", "F", "G", "H", "I", "J"] "K" =
      ["A", "B", "C", "D", "E", "F", "G", "H", "I", "J"].drop 1 ++ ["K"] :=
  ⟨by decide, by decide,
    c4_history_invariants.2 ["A", "B", "C", "D", "E", "F", "G", "H", "I", "J"] "K"
      (by decide) (by decide)⟩

/-- C5: for every history of at most 10 entries without duplicates and every
UID already present in it, recording that UID again moves it to the
newest-last position while leaving the set of members and the size of the
history unchanged. -/
theorem c5_recapture_moves_to_newest :
    ∀ (h : List String) (u : String), h.Nodup → u ∈ h → h.length ≤ 10 →
      (record h u).length = h.length ∧
      (∀ x, x ∈ record h u ↔ x ∈ h) ∧
      (record h u).getLast? = some u := by
  intro h u hn hu hlen
  have hpos : 1 ≤ h.length := List.length_pos.2 (List.ne_nil_of_mem hu)
  have hel : (h.erase u).length = h.length - 1 := List.length_erase_of_mem hu
  have hrec : record h u = h.erase u ++ [u] := by
    unfold record
    rw [if_pos hu, if_neg (by simp [hel]; omega)]
  refine ⟨?_, ?_, record_getLast h u⟩
  · rw [hrec]
    simp [hel]
    omega
  · intro x
    rw [hrec]
    simp only [List.mem_append, List.mem_singleton, hn.mem_erase_iff]
    constructor
    · rintro (⟨_, hx⟩ | rfl)
      · exact hx
      · exact hu
    · intro hx
      by_cases hxu : x = u
      · exact Or.inr hxu
      · exact Or.inl ⟨hxu, hx⟩

theorem c5_recapture_moves_to_newest_witness :
    (["A", "B", "C"].Nodup) ∧ ("B" ∈ ["A", "B", "C"]) ∧
    ((["A", "B", "C"] : List String).length ≤ 10) ∧
    (record ["A", "B", "C"] "B").getLast? = some "B" :=
  ⟨by decide, by decide, by decide,
    (c5_recapture_moves_to_newest ["A", "B", "C"] "B" (by decide) (by decide)
      (by decide)).2.2⟩

/-- C8 counterexample: starting from a state with no monitor, if the
CardMonitor constructor succeeds and addObserver then raises, the monitor
reference does not remain None, so creation is not retried on the next poll
iteration; the claim that any error inside _ensure_card_monitor_started
leaves the monitor reference None fails at this input. -/
theorem c8_started_failure_counterexample :
    (ensureStarted ⟨none, none, none, none, none, false⟩ false true).1.cardMonitor ≠ none := by
  decide

/-- C8 amended: if the error is raised by the CardMonitor constructor itself,
the error is logged, the monitor reference remains None, and creation is
retried on the next poll iteration; but if the error is raised by addObserver
after the constructor succeeded, the monitor reference is already assigned and
remains set, so creation is not retried. -/
theorem c8_started_failure :
    ∀ (s : LoopState) (b : Bool), s.cardMonitor = none →
      ((ensureStarted s true b).1 = s ∧
       (ensureStarted s true b).2 =
         [MAct.logLine "[App] Failed to start CardMonitor: Exception"] ∧
       ((ensureStarted (ensureStarted s true b).1 false false).2.countP isCreateAct = 1)) ∧
      ((ensureStarted s false true).1.cardMonitor = some () ∧
       (ensureStarted (ensureStarted s false true).1 b b).2 = []) := by
  intro s b hnone
  refine ⟨⟨?_, ?_, ?_⟩, ?_, ?_⟩ <;>
    simp [ensureStarted, hnone, isCreateAct, List.countP_cons]

theorem c8_started_failure_witness :
    ((⟨none, none, none, none, none, false⟩ : LoopState).cardMonitor = none) ∧
    (ensureStarted ⟨none, none, none, none, none, false⟩ true false).1 =
      ⟨none, none, none, none, none, false⟩ :=
  ⟨rfl, (c8_started_failure ⟨none, none, none, none, none, false⟩ false rfl).1.1⟩

/-- C9 code bug: the Notifier defines no nfc_reader_state method, so every
monitor-loop iteration whose (connected, name) pair differs from the last
observed pair assigns reader_name and then raises AttributeError at the
notifier call, before the icon swap, the menu rebuild, the loop-local update
and the monitor start or stop; the exception propagates out of _monitor_loop
and the monitor thread dies. In particular the absent-to-present transition
that the claim says triggers exactly one MonitorHandle creation and one
notification performs zero creations, zero notifications and zero
destructions. -/
theorem c9_transition_attr_failure :
    (∀ (s : LoopState) (rlist : List String) (b1 b2 b3 : Bool),
      (some (decide (rlist.length > 0)) ≠ s.lastConnected ∨ rlist.head? ≠ s.lastName) →
        monitorIter s rlist b1 b2 b3 =
          ({s with readerName := rlist.head?}, [],
           Except.error (attrError "nfc_reader_state"))) ∧
    ((monitorIter ⟨some false, none, none, none, none, true⟩ ["ACR122U"]
        false false false).2.1.countP isCreateAct = 0 ∧
     (monitorIter ⟨some false, none, none, none, none, true⟩ ["ACR122U"]
        false false false).2.1.countP isNotifyAct = 0 ∧
     (monitorIter ⟨some false, none, none, none, none, true⟩ ["ACR122U"]
        false false false).2.1.countP isDeleteAct = 0 ∧
     (monitorIter ⟨some false, none, none, none, none, true⟩ ["ACR122U"]
        false false false).2.2 = Except.error (attrError "nfc_reader_state")) := by
  refine ⟨?_, by decide, by decide, by decide, rfl⟩
  intro s rlist b1 b2 b3 hchanged
  simp [monitorIter, notifierCall, notifierMethods, hchanged]

theorem c9_transition_attr_failure_witness :
    (some (decide ((["ACR122U"] : List String).length > 0)) ≠
        (⟨some false, none, none, none, none, true⟩ : LoopState).lastConnected ∨
      (["ACR122U"] : List String).head? ≠
        (⟨some false, none, none, none, none, true⟩ : LoopState).lastName) ∧
    monitorIter ⟨some false, none, none, none, none, true⟩ ["ACR122U"] false false false =
      (⟨some false, none, some "ACR122U", none, none, true⟩, [],
       Except.error (attrError "nfc_reader_state")) :=
  ⟨by decide,
    c9_transition_attr_failure.1 ⟨some false, none, none, none, none, true⟩ ["ACR122U"]
      false false false (by decide)⟩

/-- C10: every call to _ensure_card_monitor_stopped leaves both the monitor
reference and the observer reference None; its result does not depend on
whether the underlying deleteObserver call raises (the exception is swallowed,
so the call returns normally either way); calling it when no monitor and no
observer exist performs no deleteObserver call and changes nothing; and the
operation is idempotent: a second call performs no deleteObserver call and
leaves the state unchanged. -/
theorem c10_stopped_idempotent :
    ∀ (s : LoopState) (df dg : Bool),
      (ensureStopped s df).1.cardMonitor = none ∧
      (ensureStopped s df).1.observer = none ∧
      ensureStopped s true = ensureStopped s false ∧
      (s.cardMonitor = none → s.observer = none → ensureStopped s df = (s, [])) ∧
      ensureStopped (ensureStopped s df).1 dg = ((ensureStopped s df).1, []) := by
  intro s df dg
  obtain ⟨lc, ln, rn, cm, ob, sn⟩ := s
  refine ⟨?_, ?_, ?_, ?_, ?_⟩
  · cases df <;> cases cm <;> cases ob <;> rfl
  · cases df <;> cases cm <;> cases ob <;> rfl
  · cases cm <;> cases ob <;> rfl
  · intro hcm hob
    simp only at hcm hob
    subst hcm; subst hob
    cases df <;> rfl
  · cases df <;> cases dg <;> cases cm <;> cases ob <;> rfl

theorem c10_stopped_idempotent_witness :
    ((⟨none, none, none, none, none, false⟩ : LoopState).cardMonitor = none) ∧
    ((⟨none, none, none, none, none, false⟩ : LoopState).observer = none) ∧
    ensureStopped ⟨none, none, none, none, none, false⟩ true =
      (⟨none, none, none, none, none, false⟩, []) :=
  ⟨rfl, rfl,
    (c10_stopped_idempotent ⟨none, none, none, none, none, false⟩ true false).2.2.2.1 rfl rfl⟩

end NFCopy
